import Mathlib

/-!
Shallow embedding of the render core of the `viz` repository
(`src/wasm/render.rs`, plus the host-side aspect test `tests/aspect.rs`),
used to check the claims of the specification against the code.

Modelling conventions:
* `f32`/`f64` arithmetic is modelled over `ℚ`; decimal literals of the
  source become the exact rationals they denote.  The `f32` constants
  `PI` and `TAU` are modelled by the exact rational values of those
  `f32` bit patterns.
* The GLSL ES built-in transcendental functions (`sin`, `cos`, `sqrt`,
  `pow`) have implementation-defined precision on the GPU; the embedding
  therefore takes them as parameters, bundled in a `Glsl` structure.
  Shader-level statements are quantified over (or instantiated at) such
  an implementation.
* Texture sampling (`texture(u_src, p)`, `texture(u_mask, p)`) is
  modelled by arbitrary functions `ℚ × ℚ → ℚ × ℚ × ℚ` (a filtered lookup
  the compositor does not control).
* `js_sys::Math::random()` is modelled by a stream `ℕ → ℚ` of draws,
  consumed in the order in which `frand()` is called inside
  `randomize_params`.
* `usize` on `wasm32` is 32 bits wide; the sentinel `usize::MAX` is
  `2 ^ 32 - 1`.  All reachable indices stay far below it, so plain `ℕ`
  arithmetic agrees with the wrapping `usize` arithmetic of the source.
-/

namespace Viz

abbrev V2 := ℚ × ℚ
abbrev V3 := ℚ × ℚ × ℚ

/-! ### GLSL built-ins over ℚ (from the GLSL ES 3.0 definitions) -/

/-- GLSL built-ins whose precision is implementation-defined, taken as
parameters of the embedding. -/
structure Glsl where
  sin : ℚ → ℚ
  cos : ℚ → ℚ
  sqrt : ℚ → ℚ
  pow : ℚ → ℚ → ℚ

def glFloor (x : ℚ) : ℚ := ⌊x⌋

def glFract (x : ℚ) : ℚ := x - ⌊x⌋

/-- GLSL `step(edge, x)`: 0 if `x < edge`, else 1. -/
def glStep (edge x : ℚ) : ℚ := if x < edge then 0 else 1

def glClamp (x lo hi : ℚ) : ℚ := min (max x lo) hi

/-- GLSL `mix(x, y, a) = x*(1-a) + y*a`. -/
def glMix (x y a : ℚ) : ℚ := x * (1 - a) + y * a

/-- GLSL `smoothstep(e0, e1, x)` as computed by hardware (the shaders use
it with `e0 > e1` as well). -/
def glSmoothstep (e0 e1 x : ℚ) : ℚ :=
  let t := glClamp ((x - e0) / (e1 - e0)) 0 1
  t * t * (3 - 2 * t)

def glLength (G : Glsl) (v : V2) : ℚ := G.sqrt (v.1 * v.1 + v.2 * v.2)

def glNormalize (G : Glsl) (v : V2) : V2 :=
  (v.1 / glLength G v, v.2 / glLength G v)

/-- Application of the GLSL matrix `mat2(c, -s, s, c)` (column-major, with
`c = cos ang`, `s = sin ang`) to a vector, as used for `R`, `RD` and the
vortex rotation of the composite shader. -/
def rotM (G : Glsl) (ang : ℚ) (v : V2) : V2 :=
  let c := G.cos ang
  let s := G.sin ang
  (c * v.1 + s * v.2, -s * v.1 + c * v.2)

def smul3 (k : ℚ) (v : V3) : V3 := (k * v.1, k * v.2.1, k * v.2.2)

def add3 (a b : V3) : V3 := (a.1 + b.1, a.2.1 + b.2.1, a.2.2 + b.2.2)

def mix3 (a b : V3) (k : ℚ) : V3 :=
  (glMix a.1 b.1 k, glMix a.2.1 b.2.1 k, glMix a.2.2 b.2.2 k)

def lum (c : V3) : ℚ := 0.2126 * c.1 + 0.7152 * c.2.1 + 0.0722 * c.2.2

/-! ### Composite fragment shader helpers (`Post::new`, second `fsrc`) -/

/-- `hash12` of the composite shader. -/
def hash12 (G : Glsl) (p : V2) : ℚ :=
  glFract (G.sin (p.1 * 127.1 + p.2 * 311.7) * 43758.5453)

/-- `hash22` of the composite shader. -/
def hash22 (G : Glsl) (p : V2) : V2 :=
  (glFract (G.sin (p.1 * 127.1 + p.2 * 311.7) * 43758.5453),
   glFract (G.sin (p.1 * 269.5 + p.2 * 183.3) * 43758.5453))

/-- One component of `hsv2rgb` (offsets 0, 2/6, 4/6 for r, g, b). -/
def hsvComp (h offs s v : ℚ) : ℚ :=
  v * glMix 1 (glClamp (|glFract (h + offs) * 6 - 3| - 1) 0 1) s

/-- `hsv2rgb` of the composite shader. -/
def hsv2rgb (h s v : ℚ) : V3 :=
  (hsvComp h 0 s v, hsvComp h (2 / 6) s v, hsvComp h (4 / 6) s v)

/-- Pattern parameters (`PatternParams` of `render.rs`). -/
structure PatternParams where
  theta0 : ℚ
  theta_speed : ℚ
  density : ℚ
  thickness : ℚ
  drift_x : ℚ
  drift_y : ℚ
  mode_polka : Bool
  dot_theta0 : ℚ
  dot_theta_speed : ℚ
  dot_drift_x : ℚ
  dot_drift_y : ℚ
  dot_density : ℚ
  dot_rmin : ℚ
  dot_rmax : ℚ
  color_speed : ℚ
deriving DecidableEq

/-- `PatternParams::default`. -/
def PatternParams.default : PatternParams :=
  { theta0 := 0, theta_speed := 0.1, density := 16, thickness := 0.5
    drift_x := 0.05, drift_y := 0.03
    mode_polka := false
    dot_theta0 := 0, dot_theta_speed := 0.08, dot_drift_x := 0.03, dot_drift_y := -0.02
    dot_density := 10, dot_rmin := 0.05, dot_rmax := 0.18
    color_speed := 0.1 }

/-- The value passed for the `u_fill_mode` uniform by `Post::draw`. -/
def fillMode (sp : PatternParams) : ℚ := if sp.mode_polka then 1 else 0

/-- The stripe pattern of the composite shader, as a function of the
coordinate at which the shader evaluates it. -/
def stripeAt (G : Glsl) (sp : PatternParams) (t : ℚ) (coord : V2) : V3 :=
  let theta := sp.theta0 + sp.theta_speed * t
  let q0 := rotM G theta (coord.1 - 0.5, coord.2 - 0.5)
  let q : V2 := (q0.1 + sp.drift_x * t, q0.2 + sp.drift_y * t)
  let s := glFract (q.2 * sp.density)
  let stripeMask := glStep s (glClamp sp.thickness 0.02 0.98)
  let hue := glFract (q.1 * (sp.density * 0.5) + t * sp.color_speed)
  smul3 stripeMask (hsv2rgb hue 0.9 1)

/-- The polka-dot pattern of the composite shader, as a function of the
coordinate at which the shader evaluates it. -/
def polkaAt (G : Glsl) (sp : PatternParams) (t : ℚ) (coord : V2) : V3 :=
  let theta_d := sp.dot_theta0 + sp.dot_theta_speed * t
  let pd0 := rotM G theta_d (coord.1 - 0.5, coord.2 - 0.5)
  let pd : V2 := (pd0.1 + sp.dot_drift_x * t + 0.5, pd0.2 + sp.dot_drift_y * t + 0.5)
  let dens := max 2 sp.dot_density
  let g : V2 := (pd.1 * dens, pd.2 * dens)
  let cell : V2 := (glFloor g.1, glFloor g.2)
  let f : V2 := (glFract g.1, glFract g.2)
  let j : V2 := (((hash22 G cell).1 - 0.5) * 0.8, ((hash22 G cell).2 - 0.5) * 0.8)
  let center : V2 := (0.5 + j.1, 0.5 + j.2)
  let rmin := max 0.005 sp.dot_rmin
  let rmax := max (rmin + 0.002) sp.dot_rmax
  let rad := glMix rmin rmax (hash12 G (cell.1 + 13.17, cell.2 + 13.17))
  let d := glLength G (f.1 - center.1, f.2 - center.2)
  let dotMask := glStep d rad
  let hue_d := glFract ((cell.1 + cell.2 * 1.37) * 0.15 + t * sp.color_speed)
  smul3 dotMask (hsv2rgb hue_d 0.9 1)

/-- One vortex warp contribution of the displacement field. -/
def vortexAt (G : Glsl) (t : ℚ) (uv c : V2) : V2 :=
  let d : V2 := (uv.1 - c.1, uv.2 - c.2)
  let r := glLength G d + 0.0001
  let ang := 0.15 * G.sin (t * 0.8 + r * 25)
  let rd := rotM G ang d
  let k := glSmoothstep 0.25 0 r
  ((rd.1 - d.1) * k, (rd.2 - d.2) * k)

/-- One bubble contribution of the displacement field (`i` = 0, 1, 2). -/
def bubbleAt (G : Glsl) (t : ℚ) (uv : V2) (i : ℚ) : V2 :=
  let seed0 : V2 :=
    (glFract (G.sin (i * 12.9898 + 78.233) * 43758.5453),
     glFract (G.sin (i * 19.123 + 11.73) * 24634.6345))
  let seed : V2 :=
    (0.2 + 0.6 * seed0.1 + 0.05 * G.sin (t * (1 + i * 0.3) + i),
     0.2 + 0.6 * seed0.2 + 0.05 * G.cos (t * (1.2 + i * 0.17) + i))
  let d : V2 := (uv.1 - seed.1, uv.2 - seed.2)
  let r := glLength G d
  let r0 := 0.18 + 0.05 * G.sin (t * 1.7 + i)
  let amp := 0.008 * G.sin ((r - r0) * 40 - t * 3)
  let n := glNormalize G d
  let k := amp * glSmoothstep r0 0 r
  (n.1 * k, n.2 * k)

/-- The full displacement field accumulated by the composite shader in
square space (waves, two vortices, three bubbles). -/
def dispAt (G : Glsl) (t : ℚ) (uv : V2) : V2 :=
  let wave := G.sin (uv.2 * 12 + t * 1.5) * 0.003 + G.sin ((uv.1 + uv.2) * 10 - t * 1.2) * 0.002
  let s1 : V2 := (0.3 + 0.2 * G.sin (t * 0.4), 0.4 + 0.2 * G.cos (t * 0.35))
  let s2 : V2 := (0.7 + 0.2 * G.cos (t * 0.37), 0.6 + 0.2 * G.sin (t * 0.31))
  let v1 := vortexAt G t uv s1
  let v2 := vortexAt G t uv s2
  let b0 := bubbleAt G t uv 0
  let b1 := bubbleAt G t uv 1
  let b2 := bubbleAt G t uv 2
  (wave + v1.1 + v2.1 + b0.1 + b1.1 + b2.1, v1.2 + v2.2 + b0.2 + b1.2 + b2.2)

def squareSide (res : V2) : ℚ := min res.1 res.2

/-- The centered square-normalized coordinate of a fragment. -/
def squareUV (res frag : V2) : V2 :=
  let side := squareSide res
  ((frag.1 - (res.1 - side) / 2) / side, (frag.2 - (res.2 - side) / 2) / side)

/-- The shader's letterbox test (`any(lessThan ...) || any(greaterThan ...)`)
is the negation of this predicate. -/
def insideSq (uv : V2) : Prop := 0 ≤ uv.1 ∧ uv.1 ≤ 1 ∧ 0 ≤ uv.2 ∧ uv.2 ≤ 1

instance (uv : V2) : Decidable (insideSq uv) := by unfold insideSq; infer_instance

def aVec (res : V2) : V2 := (squareSide res / res.1, squareSide res / res.2)

/-- `suv_sq`: the displaced square coordinate, clamped to the square. -/
def suvSqAt (G : Glsl) (t : ℚ) (uvsq : V2) : V2 :=
  let d := dispAt G t uvsq
  (glClamp (uvsq.1 + d.1) 0 1, glClamp (uvsq.2 + d.2) 0 1)

/-- Map square UVs back into the inscribed band of the rectangular textures. -/
def texUV (res : V2) (sq : V2) : V2 :=
  let a := aVec res
  ((sq.1 - 0.5) / a.1 + 0.5, (sq.2 - 0.5) / a.2 + 0.5)

/-- `sample_src`: scene sampling with per-channel chromatic aberration. -/
def sampleSrc (G : Glsl) (src : V2 → V3) (uv : V2) : V3 :=
  let c : V2 := (uv.1 - 0.5, uv.2 - 0.5)
  let r := glLength G c
  let ca := 0.002 * r
  let n := glNormalize G c
  ((src (uv.1 + ca * n.1, uv.2 + ca * n.2)).1,
   (src uv).2.1,
   (src (uv.1 - ca * n.1, uv.2 - ca * n.2)).2.2)

/-- The flame edge overlay: Sobel on the 8 neighbours of `suv`, converted
to a flickering warm colour. -/
def flameAt (G : Glsl) (src : V2 → V3) (res suv : V2) (t : ℚ) : V3 :=
  let px : V2 := (1 / res.1, 1 / res.2)
  let l00 := lum (src (suv.1 + px.1 * (-1), suv.2 + px.2 * (-1)))
  let l10 := lum (src (suv.1 + px.1 * 0, suv.2 + px.2 * (-1)))
  let l20 := lum (src (suv.1 + px.1 * 1, suv.2 + px.2 * (-1)))
  let l01 := lum (src (suv.1 + px.1 * (-1), suv.2 + px.2 * 0))
  let l21 := lum (src (suv.1 + px.1 * 1, suv.2 + px.2 * 0))
  let l02 := lum (src (suv.1 + px.1 * (-1), suv.2 + px.2 * 1))
  let l12 := lum (src (suv.1 + px.1 * 0, suv.2 + px.2 * 1))
  let l22 := lum (src (suv.1 + px.1 * 1, suv.2 + px.2 * 1))
  let gx := (l20 + 2 * l21 + l22) - (l00 + 2 * l01 + l02)
  let gy := (l02 + 2 * l12 + l22) - (l00 + 2 * l10 + l20)
  let edge := glClamp (glLength G (gx, gy) * 1.5) 0 1
  let flicker := 0.6 + 0.4 * G.sin (t * 15 + suv.1 * 30 + suv.2 * 25)
  smul3 (G.pow edge 0.8 * flicker) (1, 0.5, 0.05)

set_option linter.unusedVariables false in
/-- The composite fragment shader of `Post` (the second, active `fsrc`):
output colour and alpha for one fragment. -/
def compositeFrag (G : Glsl) (src maskTex : V2 → V3) (res frag : V2)
    (t : ℚ) (sp : PatternParams) : V3 × ℚ :=
  let uv := squareUV res frag
  if uv.1 < 0 ∨ uv.2 < 0 ∨ 1 < uv.1 ∨ 1 < uv.2 then ((0, 0, 0), 1)
  else
    let uv_sq := uv
    let suv_sq := suvSqAt G t uv_sq
    let suv := texUV res suv_sq
    let base := sampleSrc G src suv
    let maskv := (maskTex suv).1
    let stripes := stripeAt G sp t suv_sq
    let polka := polkaAt G sp t suv_sq
    let pattern := mix3 stripes polka (glClamp (fillMode sp) 0 1)
    let flame := flameAt G src res suv t
    let col := mix3 (0, 0, 0) pattern maskv
    let col2 := add3 col (smul3 0.6 flame)
    let v := glSmoothstep 0.95 0.4 (glLength G (uv_sq.1 - 0.5, uv_sq.2 - 0.5))
    (smul3 v col2, 1)

set_option linter.unusedVariables false in
/-- The composite fragment shader generalized over the coordinate `pc` at
which the two fill patterns are evaluated (everything else unchanged);
`compositeFrag` is this at `pc = suv_sq`, the specification's §4.3 step 4
would be this at `pc = uv_sq`. -/
def compositeFragAtCoord (G : Glsl) (src maskTex : V2 → V3) (res frag : V2)
    (t : ℚ) (sp : PatternParams) (pc : V2) : V3 × ℚ :=
  let uv := squareUV res frag
  if uv.1 < 0 ∨ uv.2 < 0 ∨ 1 < uv.1 ∨ 1 < uv.2 then ((0, 0, 0), 1)
  else
    let uv_sq := uv
    let suv_sq := suvSqAt G t uv_sq
    let suv := texUV res suv_sq
    let base := sampleSrc G src suv
    let maskv := (maskTex suv).1
    let stripes := stripeAt G sp t pc
    let polka := polkaAt G sp t pc
    let pattern := mix3 stripes polka (glClamp (fillMode sp) 0 1)
    let flame := flameAt G src res suv t
    let col := mix3 (0, 0, 0) pattern maskv
    let col2 := add3 col (smul3 0.6 flame)
    let v := glSmoothstep 0.95 0.4 (glLength G (uv_sq.1 - 0.5, uv_sq.2 - 0.5))
    (smul3 v col2, 1)

/-! ### Aspect-invariance helpers (`tests/aspect.rs`)

The rotation angle enters only through `cos rot` and `sin rot`; the
embedding abstracts those two values as parameters `c` and `s`, so the
statements hold for every value of the pair, in particular for
`(cos (π/6), sin (π/6))`. -/

def to_p (uv res : V2) (scale c s : ℚ) : V2 :=
  let m := min res.1 res.2
  let ax := m / res.1
  let ay := m / res.2
  let x := (uv.1 * 2 - 1) * ax * scale
  let y := (uv.2 * 2 - 1) * ay * scale
  (c * x - s * y, s * x + c * y)

def uv_from_sq (uvsq res : V2) : V2 :=
  let m := min res.1 res.2
  let ax := m / res.1
  let ay := m / res.2
  ((uvsq.1 - 0.5) / ax + 0.5, (uvsq.2 - 0.5) / ay + 0.5)

/-! ### Surface manager (`adjust_size`) and offscreen targets (`Post::resize`) -/

structure WinEnv where
  cssW : ℚ
  cssH : ℚ
  dpr : ℚ
deriving DecidableEq

structure CanvasState where
  width : ℕ
  height : ℕ
  styleW : ℚ
  styleH : ℚ
  viewportW : ℤ
  viewportH : ℤ
deriving DecidableEq

/-- Rust `f64::round` (half away from zero). -/
def rustRound (x : ℚ) : ℤ := if 0 ≤ x then ⌊x + 1 / 2⌋ else ⌈x - 1 / 2⌉

/-- `adjust_size`: returns the new canvas state and whether the
canvas/viewport update was performed. -/
def adjustSize (env : WinEnv) (c : CanvasState) : CanvasState × Bool :=
  let pxW := (rustRound (env.cssW * env.dpr)).toNat
  let pxH := (rustRound (env.cssH * env.dpr)).toNat
  if c.width ≠ pxW ∨ c.height ≠ pxH then
    ({ width := pxW, height := pxH, styleW := env.cssW, styleH := env.cssH,
       viewportW := pxW, viewportH := pxH }, true)
  else (c, false)

/-- Offscreen target state: sizes plus a generation counter per backing
store, bumped on every reallocation (`tex_image_2d` call). -/
structure PostState where
  w : ℤ
  h : ℤ
  sceneAllocs : ℕ
  maskAllocs : ℕ
deriving DecidableEq

/-- `Post::resize`. -/
def postResize (p : PostState) (w h : ℤ) : PostState :=
  if p.w = w ∧ p.h = h then p
  else { w := w, h := h, sceneAllocs := p.sceneAllocs + 1, maskAllocs := p.maskAllocs + 1 }

/-! ### Segment scheduler, frame driver and keyboard input -/

def VIZ_NAMES : List String :=
  ["Pulsing Circle", "Rotating Square", "Twinkling Star", "Radiating Spokes", "Pulsing Plus"]

def vizCount : ℕ := VIZ_NAMES.length

def vizName (i : ℕ) : String := VIZ_NAMES.getD i ""

def USIZE_MAX : ℕ := 2 ^ 32 - 1

def DURATION_MS : ℚ := 20000

/-- The exact value of the `f32` constant `std::f32::consts::PI`. -/
def pi32 : ℚ := 13176795 / 4194304

/-- The exact value of the `f32` constant `std::f32::consts::TAU`. -/
def tau32 : ℚ := 13176795 / 2097152

/-- `randomize_params`, over a stream `r` of `frand()` draws consumed in
source order (`r 0` = first call, ..., `r 14` = last). -/
def randomizeParams (r : ℕ → ℚ) : PatternParams :=
  let rmin := 0.03 + r 13 * 0.12
  { theta0 := r 0 * pi32
    theta_speed := 0.05 + r 1 * 0.3
    density := 8 + r 2 * 24
    thickness := 0.15 + r 3 * 0.7
    drift_x := (r 4 * 2 - 1) * 0.15
    drift_y := (r 5 * 2 - 1) * 0.15
    color_speed := 0.05 + r 6 * 0.4
    mode_polka := decide (0.5 < r 7)
    dot_theta0 := r 8 * tau32
    dot_theta_speed := 0.02 + r 9 * 0.2
    dot_drift_x := (r 10 * 2 - 1) * 0.2
    dot_drift_y := (r 11 * 2 - 1) * 0.2
    dot_density := 6 + r 12 * 20
    dot_rmin := rmin
    dot_rmax := rmin + 0.03 + r 14 * 0.2 }

/-- Application state shared by the frame closure and the keydown closure:
`current_index`, `segment_start_ms`, `stripe_params`, and the last overlay
label handed to `set_overlay_text` (`none` before the first transition). -/
structure AppState where
  idx : ℕ
  segStart : ℚ
  params : PatternParams
  label : Option String
deriving DecidableEq

/-- The startup state: `current_index = usize::MAX`,
`segment_start_ms = start_time`. -/
def initState (t0 : ℚ) : AppState :=
  { idx := USIZE_MAX, segStart := t0, params := PatternParams.default, label := none }

/-- The overlay label string `format!("{}/{} {}", i + 1, len, name)`. -/
def mkLabel (i len : ℕ) : String :=
  toString (i + 1) ++ "/" ++ toString len ++ " " ++ vizName i

/-- One evaluation of the animation-frame closure at time `now`, restricted
to its state effects (sentinel consumption and time-based advance). -/
def frameStep (r : ℕ → ℚ) (now : ℚ) (st : AppState) : AppState :=
  if vizCount = 0 then st
  else
    let st1 : AppState :=
      if st.idx = USIZE_MAX then
        { idx := 0, segStart := now, label := some (mkLabel 0 vizCount),
          params := randomizeParams r }
      else st
    if DURATION_MS ≤ now - st1.segStart then
      let i2 := (st1.idx + 1) % vizCount
      { idx := i2, segStart := now, label := some (mkLabel i2 vizCount),
        params := randomizeParams r }
    else st1

/-- Frame evaluations folded over a list of callback times. -/
def runFrames (r : ℕ → ℚ) (ts : List ℚ) (st : AppState) : AppState :=
  ts.foldl (fun s tm => frameStep r tm s) st

/-- The callback times `0, D, 2·D, ..., N·D`. -/
def boundaryTimes (N : ℕ) : List ℚ :=
  (List.range (N + 1)).map (fun k => (k : ℚ) * DURATION_MS)

/-- The element data the keydown closure inspects on the event target. -/
structure Elem where
  tagName : String
  contenteditableAttr : Option String
deriving DecidableEq

/-- A keydown event; `target = none` models both a missing target and a
non-`Element` target (the closure advances in either case). -/
structure KeyEvent where
  key : String
  code : String
  target : Option Elem
deriving DecidableEq

/-- The advance branch of the keydown closure (`len > 0` guard included). -/
def keyAdvance (r : ℕ → ℚ) (now : ℚ) (st : AppState) : AppState :=
  if 0 < vizCount then
    let next := if st.idx = USIZE_MAX then 0 else (st.idx + 1) % vizCount
    { idx := next, segStart := now, params := randomizeParams r,
      label := some (mkLabel next vizCount) }
  else st

/-- One evaluation of the keydown closure. -/
def keyStep (r : ℕ → ℚ) (now : ℚ) (ev : KeyEvent) (st : AppState) : AppState :=
  if ev.key = " " ∨ ev.code = "Space" then
    match ev.target with
    | some el =>
      if el.tagName = "INPUT" ∨ el.tagName = "TEXTAREA" ∨ el.contenteditableAttr.isSome then st
      else keyAdvance r now st
    | none => keyAdvance r now st
  else st

/-- The states reachable from startup by frame evaluations and keydown
events. -/
inductive Reachable : AppState → Prop where
  | init (t0 : ℚ) : Reachable (initState t0)
  | frame (r : ℕ → ℚ) (now : ℚ) (s : AppState) : Reachable s → Reachable (frameStep r now s)
  | key (r : ℕ → ℚ) (now : ℚ) (ev : KeyEvent) (s : AppState) :
      Reachable s → Reachable (keyStep r now ev s)

/-! ## Claim theorems -/

/-! ### Small shared facts about the scheduler -/

theorem vizCount_eq : vizCount = 5 := rfl

theorem vizCount_pos : 0 < vizCount := by norm_num [vizCount, VIZ_NAMES]

theorem vizCount_ne_zero : vizCount ≠ 0 := by norm_num [vizCount, VIZ_NAMES]

theorem mod_vizCount_ne_sentinel (n : ℕ) : n % vizCount ≠ USIZE_MAX := by
  have h := Nat.mod_lt n vizCount_pos
  rw [vizCount_eq] at h
  have hmax : USIZE_MAX = 4294967295 := by norm_num [USIZE_MAX]
  rw [vizCount_eq, hmax]
  omega

/-- C3 (amended): on every re-randomization from a uniform source in
`[0,1)`, the rotation speed lies in `[0.05, 0.35]`, the stripe density in
`[8, 32)`, the dot density in `[6, 26)`, every drift component in
`[-0.2, 0.2]`, and the fill mode is polka exactly when the eighth draw
exceeds `1/2`. -/
theorem randomize_bounds (r : ℕ → ℚ) (h : ∀ i, 0 ≤ r i ∧ r i < 1) :
    (0.05 ≤ (randomizeParams r).theta_speed ∧ (randomizeParams r).theta_speed ≤ 0.35) ∧
    (8 ≤ (randomizeParams r).density ∧ (randomizeParams r).density < 32) ∧
    (6 ≤ (randomizeParams r).dot_density ∧ (randomizeParams r).dot_density < 26) ∧
    (-0.2 ≤ (randomizeParams r).drift_x ∧ (randomizeParams r).drift_x ≤ 0.2) ∧
    (-0.2 ≤ (randomizeParams r).drift_y ∧ (randomizeParams r).drift_y ≤ 0.2) ∧
    (-0.2 ≤ (randomizeParams r).dot_drift_x ∧ (randomizeParams r).dot_drift_x ≤ 0.2) ∧
    (-0.2 ≤ (randomizeParams r).dot_drift_y ∧ (randomizeParams r).dot_drift_y ≤ 0.2) ∧
    ((randomizeParams r).mode_polka = true ↔ 0.5 < r 7) := by
  obtain ⟨h1l, h1u⟩ := h 1
  obtain ⟨h2l, h2u⟩ := h 2
  obtain ⟨h4l, h4u⟩ := h 4
  obtain ⟨h5l, h5u⟩ := h 5
  obtain ⟨h10l, h10u⟩ := h 10
  obtain ⟨h11l, h11u⟩ := h 11
  obtain ⟨h12l, h12u⟩ := h 12
  simp only [randomizeParams]
  refine ⟨⟨by linarith, by linarith⟩, ⟨by linarith, by linarith⟩,
    ⟨by linarith, by linarith⟩, ⟨by linarith, by linarith⟩,
    ⟨by linarith, by linarith⟩, ⟨by linarith, by linarith⟩,
    ⟨by linarith, by linarith⟩, ?_⟩
  exact decide_eq_true_iff

theorem randomize_bounds_witness :
    ((0 : ℚ) ≤ 1/2 ∧ (1 : ℚ)/2 < 1) ∧
    (0.05 ≤ (randomizeParams (fun _ => 1/2)).theta_speed ∧
      (randomizeParams (fun _ => 1/2)).theta_speed ≤ 0.35) := by
  refine ⟨⟨by norm_num, by norm_num⟩, ?_⟩
  exact (randomize_bounds (fun _ => 1/2) (fun _ => ⟨by norm_num, by norm_num⟩)).1

section DecideRat

attribute [local semireducible] Rat.add Rat.mul Rat.sub Rat.inv Rat.ofScientific

/-- C3 (counterexample): with every draw equal to `23/24` (a legal value of
the uniform source), the re-randomized stripe density is `31`, outside the
documented interval `[6, 30]`. -/
theorem randomize_bounds_counterexample :
    ((0 : ℚ) ≤ 23/24 ∧ (23 : ℚ)/24 < 1) ∧
    (randomizeParams (fun _ => 23/24)).density = 31 ∧
    ¬ ((randomizeParams (fun _ => 23/24)).density ≤ 30) := by decide

end DecideRat

theorem frameStep_sentinel (r : ℕ → ℚ) (now : ℚ) (st : AppState)
    (h : st.idx = USIZE_MAX) :
    frameStep r now st =
      { idx := 0, segStart := now, params := randomizeParams r,
        label := some (mkLabel 0 vizCount) } := by
  norm_num [frameStep, vizCount_ne_zero, h, DURATION_MS]

theorem frameStep_advance (r : ℕ → ℚ) (now : ℚ) (st : AppState)
    (h : st.idx ≠ USIZE_MAX) (hle : DURATION_MS ≤ now - st.segStart) :
    frameStep r now st =
      { idx := (st.idx + 1) % vizCount, segStart := now, params := randomizeParams r,
        label := some (mkLabel ((st.idx + 1) % vizCount) vizCount) } := by
  norm_num [frameStep, vizCount_ne_zero, h, hle]

theorem frameStep_idle (r : ℕ → ℚ) (now : ℚ) (st : AppState)
    (h : st.idx ≠ USIZE_MAX) (hlt : now - st.segStart < DURATION_MS) :
    frameStep r now st = st := by
  norm_num [frameStep, vizCount_ne_zero, h, not_le.mpr hlt]

/-- C4: one frame evaluation (a) consumes the sentinel into
`Active(0, now)` with re-randomized parameters and an updated label,
(b) while active with `now - segStart ≥ DURATION_MS` advances to
`(idx + 1) % count` at `now` with the same side effects, and (c) while
active below the threshold changes nothing. -/
theorem frameStep_transition_spec (r : ℕ → ℚ) (now : ℚ) (st : AppState) :
    (st.idx = USIZE_MAX →
      frameStep r now st =
        { idx := 0, segStart := now, params := randomizeParams r,
          label := some (mkLabel 0 vizCount) }) ∧
    (st.idx ≠ USIZE_MAX → DURATION_MS ≤ now - st.segStart →
      frameStep r now st =
        { idx := (st.idx + 1) % vizCount, segStart := now, params := randomizeParams r,
          label := some (mkLabel ((st.idx + 1) % vizCount) vizCount) }) ∧
    (st.idx ≠ USIZE_MAX → now - st.segStart < DURATION_MS →
      frameStep r now st = st) :=
  ⟨frameStep_sentinel r now st, frameStep_advance r now st, frameStep_idle r now st⟩

theorem frameStep_transition_spec_witness :
    (frameStep (fun _ => 1/2) 5 (initState 0) =
      { idx := 0, segStart := 5, params := randomizeParams (fun _ => 1/2),
        label := some (mkLabel 0 vizCount) }) ∧
    (frameStep (fun _ => 1/2) 20000
        { idx := 0, segStart := 0, params := PatternParams.default, label := none } =
      { idx := (0 + 1) % vizCount, segStart := 20000, params := randomizeParams (fun _ => 1/2),
        label := some (mkLabel ((0 + 1) % vizCount) vizCount) }) ∧
    (frameStep (fun _ => 1/2) 300
        { idx := 0, segStart := 0, params := PatternParams.default, label := none } =
      { idx := 0, segStart := 0, params := PatternParams.default, label := none }) := by
  refine ⟨(frameStep_transition_spec (fun _ => 1/2) 5 (initState 0)).1 rfl,
    (frameStep_transition_spec (fun _ => 1/2) 20000 _).2.1 (by norm_num [USIZE_MAX])
      (by norm_num [DURATION_MS]),
    (frameStep_transition_spec (fun _ => 1/2) 300 _).2.2 (by norm_num [USIZE_MAX])
      (by norm_num [DURATION_MS])⟩

/-- C8: the resize reconciliation is idempotent — an immediately repeated
`adjust_size` with the same window environment performs no further
canvas/viewport update, and `Post::resize` at the current size leaves the
offscreen targets and their backing stores untouched. -/
theorem resize_idempotent (env : WinEnv) (cst : CanvasState) (p : PostState) :
    adjustSize env (adjustSize env cst).1 = ((adjustSize env cst).1, false) ∧
    postResize p p.w p.h = p := by
  constructor
  · by_cases h : cst.width ≠ (rustRound (env.cssW * env.dpr)).toNat ∨
        cst.height ≠ (rustRound (env.cssH * env.dpr)).toNat
    · simp only [adjustSize, if_pos h]
      rw [if_neg]
      simp
    · simp only [adjustSize, if_neg h]
  · simp [postResize]

/-- C9: a keydown whose key is not the advance key (neither `key = " "`
nor `code = "Space"`), or a space keydown targeted at a text-input-like
element (INPUT, TEXTAREA or contenteditable), leaves the application state
(segment index, segment start, pattern parameters, label) unchanged. -/
theorem keydown_noop (r : ℕ → ℚ) (now : ℚ) (ev : KeyEvent) (st : AppState)
    (h : (ev.key ≠ " " ∧ ev.code ≠ "Space") ∨
         ((ev.key = " " ∨ ev.code = "Space") ∧ ∃ el, ev.target = some el ∧
           (el.tagName = "INPUT" ∨ el.tagName = "TEXTAREA" ∨
             el.contenteditableAttr.isSome))) :
    keyStep r now ev st = st := by
  rcases h with ⟨hk, hc⟩ | ⟨hkey, el, htgt, hsup⟩
  · unfold keyStep
    rw [if_neg (not_or.mpr ⟨hk, hc⟩)]
  · unfold keyStep
    rw [if_pos hkey, htgt]
    exact if_pos hsup

theorem keydown_noop_witness :
    keyStep (fun _ => 1/2) 7 { key := "a", code := "KeyA", target := none } (initState 0) =
      initState 0 ∧
    keyStep (fun _ => 1/2) 7
        { key := " ", code := "Space",
          target := some { tagName := "INPUT", contenteditableAttr := none } }
        (initState 0) =
      initState 0 := by
  constructor
  · exact keydown_noop _ _ _ _ (Or.inl ⟨by decide, by decide⟩)
  · exact keydown_noop _ _ _ _
      (Or.inr ⟨Or.inl rfl, _, rfl, Or.inl rfl⟩)

/-- C10: a space keydown (with a non-suppressing target) received while
the index still holds the sentinel activates index 0 with the full
transition side effects — the same state the first frame evaluation would
produce. -/
theorem keydown_sentinel_advance (r : ℕ → ℚ) (now : ℚ) (ev : KeyEvent) (st : AppState)
    (hkey : ev.key = " " ∨ ev.code = "Space")
    (htgt : ∀ el, ev.target = some el →
      ¬(el.tagName = "INPUT" ∨ el.tagName = "TEXTAREA" ∨ el.contenteditableAttr.isSome))
    (hidx : st.idx = USIZE_MAX) :
    keyStep r now ev st =
      { idx := 0, segStart := now, params := randomizeParams r,
        label := some (mkLabel 0 vizCount) } ∧
    keyStep r now ev st = frameStep r now st := by
  have hks : keyStep r now ev st = keyAdvance r now st := by
    unfold keyStep
    rw [if_pos hkey]
    cases htarget : ev.target with
    | none => rfl
    | some el => exact if_neg (htgt el htarget)
  have hka : keyAdvance r now st =
      { idx := 0, segStart := now, params := randomizeParams r,
        label := some (mkLabel 0 vizCount) } := by
    simp [keyAdvance, vizCount_pos, hidx]
  refine ⟨hks.trans hka, (hks.trans hka).trans ?_⟩
  exact (frameStep_sentinel r now st hidx).symm

theorem keydown_sentinel_advance_witness :
    keyStep (fun _ => 1/2) 9 { key := " ", code := "Space", target := none } (initState 0) =
      { idx := 0, segStart := 9, params := randomizeParams (fun _ => 1/2),
        label := some (mkLabel 0 vizCount) } ∧
    keyStep (fun _ => 1/2) 9 { key := " ", code := "Space", target := none } (initState 0) =
      frameStep (fun _ => 1/2) 9 (initState 0) :=
  keydown_sentinel_advance (fun _ => 1/2) 9 _ (initState 0) (Or.inl rfl)
    (fun _ h => Option.noConfusion h) rfl

/-! ### Segment rotation (C5, C6) -/

theorem runFrames_append_one (r : ℕ → ℚ) (ts : List ℚ) (tm : ℚ) (st : AppState) :
    runFrames r (ts ++ [tm]) st = frameStep r tm (runFrames r ts st) := by
  simp [runFrames, List.foldl_append]

theorem boundaryTimes_succ (N : ℕ) :
    boundaryTimes (N + 1) = boundaryTimes N ++ [((N + 1 : ℕ) : ℚ) * DURATION_MS] := by
  simp [boundaryTimes, List.range_succ]

theorem runFrames_boundary (r : ℕ → ℚ) (N : ℕ) :
    (runFrames r (boundaryTimes N) (initState 0)).idx = N % vizCount ∧
    (runFrames r (boundaryTimes N) (initState 0)).segStart = (N : ℚ) * DURATION_MS := by
  induction N with
  | zero =>
    have hbt : boundaryTimes 0 = [0] := by
      simp [boundaryTimes, List.range_succ, List.range_zero]
    rw [hbt]
    have h0 : runFrames r [0] (initState 0) = frameStep r 0 (initState 0) := rfl
    rw [h0, frameStep_sentinel r 0 (initState 0) rfl]
    norm_num
  | succ N ih =>
    obtain ⟨hidx, hseg⟩ := ih
    rw [boundaryTimes_succ, runFrames_append_one]
    have hne : (runFrames r (boundaryTimes N) (initState 0)).idx ≠ USIZE_MAX := by
      rw [hidx]; exact mod_vizCount_ne_sentinel N
    have hcond : DURATION_MS ≤ ((N + 1 : ℕ) : ℚ) * DURATION_MS -
        (runFrames r (boundaryTimes N) (initState 0)).segStart := by
      rw [hseg]; push_cast; linarith
    constructor
    · rw [frameStep_advance r _ _ hne hcond]
      simp only [hidx, vizCount_eq]
      omega
    · rw [frameStep_advance r _ _ hne hcond]

/-- C5 (amended): if frame callbacks occur exactly at the boundary times
`0, D, 2·D, ..., N·D` (the first consuming the sentinel), then after the
callback at `N·D` the active index equals `N mod count`; each transition
advances the index by exactly 1 (mod count), but it happens at the first
callback whose elapsed segment time reaches the threshold — missed
boundaries are not caught up. -/
theorem segment_periodicity_boundary (r : ℕ → ℚ) (N : ℕ) :
    (runFrames r (boundaryTimes N) (initState 0)).idx = N % vizCount :=
  (runFrames_boundary r N).1

section DecideRatC5

attribute [local semireducible] Rat.add Rat.mul Rat.sub Rat.inv Rat.ofScientific

/-- C5 (counterexample): with frame callbacks only at times `0` and
`2·DURATION_MS`, the wall clock has advanced by exactly `2·DURATION_MS`
since the sentinel was consumed, yet the active index is 1, not
`2 mod count` — the advance is not independent of the callback schedule. -/
theorem segment_periodicity_counterexample :
    ¬ ((runFrames (fun _ => 1/2) [0, 2 * DURATION_MS] (initState 0)).idx =
        2 % vizCount) := by decide

end DecideRatC5

theorem frameStep_idx_cases (r : ℕ → ℚ) (now : ℚ) (st : AppState) :
    (frameStep r now st).idx = st.idx ∨ (frameStep r now st).idx < vizCount := by
  by_cases hmax : st.idx = USIZE_MAX
  · right
    rw [frameStep_sentinel r now st hmax]
    exact vizCount_pos
  · by_cases hc : DURATION_MS ≤ now - st.segStart
    · right
      rw [frameStep_advance r now st hmax hc]
      exact Nat.mod_lt _ vizCount_pos
    · left
      rw [frameStep_idle r now st hmax (not_le.mp hc)]

theorem keyAdvance_idx (r : ℕ → ℚ) (now : ℚ) (st : AppState) :
    (keyAdvance r now st).idx < vizCount := by
  unfold keyAdvance
  rw [if_pos vizCount_pos]
  by_cases hmax : st.idx = USIZE_MAX
  · simp only [hmax, if_pos rfl]
    exact vizCount_pos
  · simp only [if_neg hmax]
    exact Nat.mod_lt _ vizCount_pos

theorem keyStep_idx_cases (r : ℕ → ℚ) (now : ℚ) (ev : KeyEvent) (st : AppState) :
    (keyStep r now ev st).idx = st.idx ∨ (keyStep r now ev st).idx < vizCount := by
  by_cases hkey : ev.key = " " ∨ ev.code = "Space"
  · cases htarget : ev.target with
    | none =>
      have hstep : keyStep r now ev st = keyAdvance r now st := by
        unfold keyStep
        rw [if_pos hkey, htarget]
      rw [hstep]
      exact Or.inr (keyAdvance_idx r now st)
    | some el =>
      by_cases hsup : el.tagName = "INPUT" ∨ el.tagName = "TEXTAREA" ∨
          el.contenteditableAttr.isSome
      · have hstep : keyStep r now ev st = st := by
          unfold keyStep
          rw [if_pos hkey, htarget]
          exact if_pos hsup
        rw [hstep]
        exact Or.inl rfl
      · have hstep : keyStep r now ev st = keyAdvance r now st := by
          unfold keyStep
          rw [if_pos hkey, htarget]
          exact if_neg hsup
        rw [hstep]
        exact Or.inr (keyAdvance_idx r now st)
  · have hstep : keyStep r now ev st = st := by
      unfold keyStep
      rw [if_neg hkey]
    rw [hstep]
    exact Or.inl rfl

/-- C6: there are 5 visualizers, and in every reachable application state
the active index is either the uninitialized sentinel or lies in
`[0, count)`; every mutating operation (first-frame initialization,
time-based advance, manual advance) preserves this. -/
theorem index_invariant :
    vizCount = 5 ∧
    ∀ s : AppState, Reachable s → s.idx = USIZE_MAX ∨ s.idx < vizCount := by
  refine ⟨rfl, fun s h => ?_⟩
  induction h with
  | init t0 => exact Or.inl rfl
  | frame r now s _ ih =>
    rcases frameStep_idx_cases r now s with heq | hlt
    · rw [heq]; exact ih
    · exact Or.inr hlt
  | key r now ev s _ ih =>
    rcases keyStep_idx_cases r now ev s with heq | hlt
    · rw [heq]; exact ih
    · exact Or.inr hlt

theorem index_invariant_witness :
    (frameStep (fun _ => 1/2) 3 (initState 0)).idx = USIZE_MAX ∨
    (frameStep (fun _ => 1/2) 3 (initState 0)).idx < vizCount :=
  index_invariant.2 _ (Reachable.frame (fun _ => 1/2) 3 _ (Reachable.init 0))

/-! ### Aspect invariance (C7) -/

/-- C7: the shared coordinate transform is aspect-invariant — mapping any
canonical square-space point into a surface's rectangular UV space
(`uv_from_sq`) and then projecting with the visualizer normalization
(`to_p`, with any scale and any rotation values `c = cos rot`,
`s = sin rot`) yields the same pair for any two surface resolutions with
positive dimensions; in particular the projections agree exactly (hence
within `1e-9`) for the concrete case of the claim. -/
theorem aspect_invariance (uvsq : V2) (scale c s : ℚ) (res1 res2 : V2)
    (h1 : 0 < res1.1) (h2 : 0 < res1.2) (h3 : 0 < res2.1) (h4 : 0 < res2.2) :
    to_p (uv_from_sq uvsq res1) res1 scale c s =
      to_p (uv_from_sq uvsq res2) res2 scale c s := by
  have hm1 : (0 : ℚ) < min res1.1 res1.2 := lt_min h1 h2
  have hm2 : (0 : ℚ) < min res2.1 res2.2 := lt_min h3 h4
  have key : ∀ res : V2, 0 < res.1 → 0 < res.2 →
      to_p (uv_from_sq uvsq res) res scale c s =
        (c * ((uvsq.1 * 2 - 1) * scale) - s * ((uvsq.2 * 2 - 1) * scale),
         s * ((uvsq.1 * 2 - 1) * scale) + c * ((uvsq.2 * 2 - 1) * scale)) := by
    intro res hr1 hr2
    have hm : (0 : ℚ) < min res.1 res.2 := lt_min hr1 hr2
    unfold to_p uv_from_sq
    have hx : (min res.1 res.2) / res.1 ≠ 0 := div_ne_zero hm.ne' hr1.ne'
    have hy : (min res.1 res.2) / res.2 ≠ 0 := div_ne_zero hm.ne' hr2.ne'
    rw [Prod.mk.injEq]
    constructor
    · field_simp
      ring
    · field_simp
      ring
  rw [key res1 h1 h2, key res2 h3 h4]

theorem aspect_invariance_witness :
    to_p (uv_from_sq (0.6, 0.5) (1920, 1080)) (1920, 1080) 1 (1/2) (1/2) =
      to_p (uv_from_sq (0.6, 0.5) (1080, 1920)) (1080, 1920) 1 (1/2) (1/2) :=
  aspect_invariance (0.6, 0.5) 1 (1/2) (1/2) (1920, 1080) (1080, 1920)
    (by norm_num) (by norm_num) (by norm_num) (by norm_num)

/-! ### Composite pass: pattern coordinate (C1) and scene-sample use (C2) -/

/-- A concrete GLSL built-in implementation used for concrete evaluation of
the composite shader. -/
def Gtest : Glsl := { sin := fun _ => 1/2, cos := fun _ => 1, sqrt := fun _ => 0, pow := fun _ _ => 0 }

def srcBlack : V2 → V3 := fun _ => (0, 0, 0)

def maskFull : V2 → V3 := fun _ => (1, 1, 1)

def resTest : V2 := (2, 2)

def fragTest : V2 := (1, 1.06)

/-- The texture-space point at which `sample_src` reads the scene colour
for the test fragment. -/
def suvTest : V2 := texUV resTest (suvSqAt Gtest 0 (squareUV resTest fragTest))

/-- A scene texture that differs from `srcBlack` exactly at `suvTest`. -/
def srcSpot : V2 → V3 := fun p => if p = suvTest then (1, 1, 1) else (0, 0, 0)

/-- C1 (amended): the active fill pattern (stripe and polka alike) is
computed at the *displaced* square coordinate `suv_sq` — the very
coordinate used for scene sampling: the composite shader coincides with
the coordinate-generalized shader instantiated at the displaced
coordinate. -/
theorem pattern_uses_displaced_coord (G : Glsl) (src maskTex : V2 → V3)
    (res frag : V2) (t : ℚ) (sp : PatternParams) :
    compositeFrag G src maskTex res frag t sp =
      compositeFragAtCoord G src maskTex res frag t sp
        (suvSqAt G t (squareUV res frag)) := rfl

section DecideRatC1C2

attribute [local semireducible] Rat.add Rat.mul Rat.sub Rat.inv Rat.ofScientific

set_option maxRecDepth 10000 in
/-- C1 (counterexample): at a concrete fragment inside the inscribed
square (with a concrete GLSL implementation, textures, time and
parameters), the composite output differs from the variant that evaluates
the fill pattern at the undisplaced square coordinate — so the pattern is
not computed in the undisplaced square UV. -/
theorem pattern_coord_counterexample :
    insideSq (squareUV resTest fragTest) ∧
    compositeFrag Gtest srcBlack maskFull resTest fragTest 0 PatternParams.default ≠
      compositeFragAtCoord Gtest srcBlack maskFull resTest fragTest 0 PatternParams.default
        (squareUV resTest fragTest) := by decide

set_option maxRecDepth 10000 in
/-- C2 (counterexample): at a concrete fragment inside the inscribed
square, two scene textures whose chromatic-aberration samples at the
displaced UV differ (black vs white) produce identical composited pixels —
the sampled scene colour does not contribute to the presented output. -/
theorem scene_sample_unused_counterexample :
    insideSq (squareUV resTest fragTest) ∧
    sampleSrc Gtest srcSpot suvTest ≠ sampleSrc Gtest srcBlack suvTest ∧
    compositeFrag Gtest srcSpot maskFull resTest fragTest 0 PatternParams.default =
      compositeFrag Gtest srcBlack maskFull resTest fragTest 0 PatternParams.default := by
  decide

end DecideRatC1C2

theorem flameAt_update (G : Glsl) (src : V2 → V3) (res suv : V2) (t : ℚ) (c : V3)
    (h1 : res.1 ≠ 0) (h2 : res.2 ≠ 0) :
    flameAt G (Function.update src suv c) res suv t = flameAt G src res suv t := by
  have hx : (1 : ℚ) / res.1 ≠ 0 := one_div_ne_zero h1
  have hy : (1 : ℚ) / res.2 ≠ 0 := one_div_ne_zero h2
  have hupd : ∀ ox oy : ℚ, ((1 : ℚ) / res.1 * ox ≠ 0 ∨ (1 : ℚ) / res.2 * oy ≠ 0) →
      Function.update src suv c (suv.1 + 1 / res.1 * ox, suv.2 + 1 / res.2 * oy) =
        src (suv.1 + 1 / res.1 * ox, suv.2 + 1 / res.2 * oy) := by
    intro ox oy hne
    apply Function.update_noteq
    intro hcontra
    rcases hne with hne | hne
    · refine hne ?_
      have h := congrArg Prod.fst hcontra
      simp only at h
      linarith
    · refine hne ?_
      have h := congrArg Prod.snd hcontra
      simp only at h
      linarith
  simp only [flameAt]
  rw [hupd (-1) (-1) (Or.inl (mul_ne_zero hx (by norm_num))),
    hupd 0 (-1) (Or.inr (mul_ne_zero hy (by norm_num))),
    hupd 1 (-1) (Or.inl (mul_ne_zero hx (by norm_num))),
    hupd (-1) 0 (Or.inl (mul_ne_zero hx (by norm_num))),
    hupd 1 0 (Or.inl (mul_ne_zero hx (by norm_num))),
    hupd (-1) 1 (Or.inl (mul_ne_zero hx (by norm_num))),
    hupd 0 1 (Or.inr (mul_ne_zero hy (by norm_num))),
    hupd 1 1 (Or.inl (mul_ne_zero hx (by norm_num)))]

/-- C2 (amended): the composited pixel blends only the mask-clipped
pattern, the flame edge overlay and the vignette; the chromatic-aberration
scene sample (`base`) is computed but unused, so overwriting the scene
texture at the displaced-UV sample point with any colour leaves the
presented output unchanged. -/
theorem composite_independent_of_scene_sample (G : Glsl) (src maskTex : V2 → V3)
    (res frag : V2) (t : ℚ) (sp : PatternParams) (c : V3)
    (h1 : res.1 ≠ 0) (h2 : res.2 ≠ 0) :
    compositeFrag G (Function.update src (texUV res (suvSqAt G t (squareUV res frag))) c)
        maskTex res frag t sp =
      compositeFrag G src maskTex res frag t sp := by
  simp only [compositeFrag]
  split
  · rfl
  · rw [flameAt_update G src res (texUV res (suvSqAt G t (squareUV res frag))) t c h1 h2]

theorem composite_independent_witness :
    compositeFrag Gtest
        (Function.update srcBlack (texUV resTest (suvSqAt Gtest 0 (squareUV resTest fragTest)))
          (1, 1, 1))
        maskFull resTest fragTest 0 PatternParams.default =
      compositeFrag Gtest srcBlack maskFull resTest fragTest 0 PatternParams.default :=
  composite_independent_of_scene_sample Gtest srcBlack maskFull resTest fragTest 0
    PatternParams.default (1, 1, 1) (by norm_num [resTest]) (by norm_num [resTest])

end Viz
